import Mathlib

/-!
Verification development for the flight-booking repository.

Shallow embedding conventions:
* calendar dates are records of year/month/day (the Python code only formats
  and compares them);
* Python floats used for prices are modelled as rationals, keeping the exact
  order and min computations the code performs;
* pydantic model construction is modelled as a fallible constructor returning
  an error value when a required field is omitted or a field validator
  rejects the value;
* Python exceptions are modelled with an explicit error monad: a function
  that may raise returns a value of an Except type.
-/

namespace FlightBooking

/-- Error values standing for the Python exception kinds the embedded code
can raise. -/
inductive PyErr where
  | validationError (field : String)
  | noSuchField (field : String)
  | attributeError (name : String)
  | valueError (msg : String)
  | modelRetry (msg : String)
  | exception (msg : String)
deriving Repr, DecidableEq

/-- Calendar date, modelling Python datetime.date values. -/
structure PDate where
  year : Nat
  month : Nat
  day : Nat
deriving Repr, DecidableEq

/-- Zero-padded two-digit rendering used by strftime for month and day. -/
def two_digit (n : Nat) : String :=
  if n < 10 then "0" ++ Nat.repr n else Nat.repr n

/-- Rendering of a date with the strftime format string for year-month-day,
as done by kayak_search_tool. -/
def strftime_ymd (d : PDate) : String :=
  Nat.repr d.year ++ "-" ++ two_digit d.month ++ "-" ++ two_digit d.day

/-- FlightClass enumeration from flight_models. -/
inductive FlightClass where
  | economy
  | premium_economy
  | business
  | first
deriving Repr, DecidableEq

/-- SeatType enumeration from flight_models. -/
inductive SeatType where
  | window
  | aisle
  | middle
deriving Repr, DecidableEq

/-- String value of a SeatType member, as in the Python str enum. -/
def SeatType.value : SeatType → String
  | .window => "window"
  | .aisle => "aisle"
  | .middle => "middle"

/-- FlightSearchRequest from flight_models (field for field). -/
structure FlightSearchRequest where
  origin : String
  destination : String
  departure_date : PDate
  return_date : Option PDate
  passengers : Int
  flight_class : FlightClass
  max_price : Option Rat
  direct_only : Bool
deriving Repr, DecidableEq

/-- FlightDetails from flight_models (field for field; the generated id is
an explicit field here). -/
structure FlightDetails where
  id : String
  airline : String
  flight_number : String
  price : Rat
  origin : String
  destination : String
  departure_time : String
  arrival_time : String
  duration : String
  date : PDate
  flight_class : FlightClass
  aircraft : Option String
  stops : Nat
  booking_url : Option String
deriving Repr, DecidableEq

/-- kayak_search_tool from app/tools/kayak_tool.py: formats the departure
(and optional return) date, builds the base URL, appends the return leg if
present, then the fixed sort/currency query suffix. -/
def kayak_search_tool (search_request : FlightSearchRequest) : String :=
  let departure := strftime_ymd search_request.departure_date
  let url := "https://www.kayak.com/flights/" ++ search_request.origin ++ "-"
    ++ search_request.destination ++ "/" ++ departure
  let url := match search_request.return_date with
    | some rd => url ++ "/" ++ strftime_ymd rd
    | none => url
  url ++ "?sort=bestflight_a&currency=USD"

/-- Canned one-way request from the test fixtures: ADD to DXB departing
2025-11-21, one economy passenger. -/
def addDxbOneWay : FlightSearchRequest :=
  { origin := "ADD"
    destination := "DXB"
    departure_date := { year := 2025, month := 11, day := 21 }
    return_date := none
    passengers := 1
    flight_class := .economy
    max_price := none
    direct_only := false }

/-- Auxiliary scan for substring containment on character lists. -/
def listContainsSub (needle : List Char) : List Char → Bool
  | [] => needle.isEmpty
  | c :: t => needle.isPrefixOf (c :: t) || listContainsSub needle t

/-- Python substring membership test (the in operator on strings). -/
def pyContains (haystack needle : String) : Bool :=
  listContainsSub needle.data haystack.data

/-- Split of a character list at every occurrence of a single separator
character; for the single-character separators the duration parser uses,
this is exactly Python str.split semantics (adjacent separators yield empty
fragments, a separator-free string yields one fragment). -/
def splitOnChar (sep : Char) : List Char → List (List Char)
  | [] => [[]]
  | c :: rest =>
    let r := splitOnChar sep rest
    if c = sep then
      [] :: r
    else
      match r with
      | [] => [[c]]
      | h :: t => (c :: h) :: t

/-- Python str.split with a single-character separator. -/
def pySplit (s : String) (sep : Char) : List String :=
  (splitOnChar sep s.data).map String.mk

/-- Whitespace characters removed by Python str.strip. -/
def isSpaceChar (c : Char) : Bool :=
  c = ' ' || c = '\t' || c = '\n' || c = '\r' || c = '\x0b' || c = '\x0c'

/-- Drop leading whitespace from a character list. -/
def dropLeadingSpace : List Char → List Char
  | [] => []
  | c :: t => if isSpaceChar c then dropLeadingSpace t else c :: t

/-- Python str.strip with no argument: remove leading and trailing
whitespace. -/
def pyStrip (s : String) : String :=
  String.mk ((dropLeadingSpace (dropLeadingSpace s.data).reverse).reverse)

/-- Python list indexing: out-of-range access raises IndexError. -/
def pyIndex (l : List String) (i : Nat) : Except PyErr String :=
  match l.get? i with
  | some v => .ok v
  | none => .error (.exception "IndexError")

/-- Value of a decimal digit string. -/
def digitsToNat (cs : List Char) : Nat :=
  cs.foldl (fun acc c => acc * 10 + (c.toNat - '0'.toNat)) 0

/-- Python int() applied to a decimal string: optional sign then decimal
digits, with surrounding whitespace tolerated; anything else raises a
ValueError. -/
def pyInt (s : String) : Except PyErr Int :=
  let signed : Int × List Char :=
    match (dropLeadingSpace (dropLeadingSpace s.data).reverse).reverse with
    | '-' :: ds => (-1, ds)
    | '+' :: ds => (1, ds)
    | ds => (1, ds)
  if !signed.2.isEmpty && signed.2.all Char.isDigit then
    .ok (signed.1 * Int.ofNat (digitsToNat signed.2))
  else
    .error (.valueError "invalid literal for int")

/-- Body of parse_duration from sort_flights_by_duration in
app/services/flight_services.py, before the except clause: hours is the
integer before the first h when one is present, minutes the integer before
the first m of the part after the first h (or of the whole string when no h
is present); any failing step raises. -/
def parse_duration_checked (duration_str : String) : Except PyErr Int := do
  let hours ←
    if pyContains duration_str "h" then do
      let part ← pyIndex (pySplit duration_str 'h') 0
      pyInt (pyStrip part)
    else
      pure 0
  let minutes ←
    if pyContains duration_str "m" then do
      let min_part ←
        if pyContains duration_str "h" then
          pyIndex (pySplit duration_str 'h') 1
        else
          pure duration_str
      let part ← pyIndex (pySplit min_part 'm') 0
      pyInt (pyStrip part)
    else
      pure 0
  pure (hours * 60 + minutes)

/-- parse_duration from sort_flights_by_duration in
app/services/flight_services.py: the checked body with the except clause
turning any raised error into 0. -/
def parse_duration (duration_str : String) : Int :=
  match parse_duration_checked duration_str with
  | .ok n => n
  | .error _ => 0

/-- The duplicate duration parser from app/services/summarize_services.py,
written out separately because the source repeats the function; its body is
identical to parse_duration. -/
def parse_duration_to_minutes (duration_str : String) : Int :=
  match parse_duration_checked duration_str with
  | .ok n => n
  | .error _ => 0

/-- filter_flights_by_price from app/services/flight_services.py: list
comprehension keeping the flights whose price is at most max_price. -/
def filter_flights_by_price (flights : List FlightDetails) (max_price : Rat) :
    List FlightDetails :=
  flights.filter (fun f => f.price ≤ max_price)

/-- filter_flights_by_stops from app/services/flight_services.py: list
comprehension keeping the flights with at most max_stops stops. -/
def filter_flights_by_stops (flights : List FlightDetails) (max_stops : Nat) :
    List FlightDetails :=
  flights.filter (fun f => f.stops ≤ max_stops)

/-- Uppercase conversion, Python str.upper on ASCII text. -/
def pyUpper (s : String) : String :=
  String.mk (s.data.map Char.toUpper)

/-- Lowercase conversion, Python str.lower on ASCII text. -/
def pyLower (s : String) : String :=
  String.mk (s.data.map Char.toLower)

/-- Python string slicing from the start, as in html_content sliced to its
first 15000 characters. -/
def pyTakeStr (n : Nat) (s : String) : String :=
  String.mk (s.data.take n)

/-- SeatPreference from flight_models. -/
structure SeatPreference where
  row : Int
  seat : String
  seat_type : SeatType
deriving Repr, DecidableEq

/-- Branch structure of the custom init of SeatPreference run after
validation: hasattr of seat_type is true on every successfully validated
instance because seat_type is a required field, so the window branch of the
if chain is unreachable; C and D are mapped to aisle and every other letter
to middle. -/
def seat_type_post_init (seat : String) : SeatType :=
  if seat = "C" || seat = "D" then SeatType.aisle else SeatType.middle

/-- Construction of a SeatPreference as pydantic performs it, followed by
the custom init of the model: row must lie between 1 and 30, seat must be
one of the six literal letters, and seat_type is a required field (a call
omitting it raises a validation error); on success the custom init
overwrites the supplied seat_type through seat_type_post_init. -/
def SeatPreference.construct (row : Int) (seat : String)
    (seat_type : Option SeatType) : Except PyErr SeatPreference :=
  if ¬ (1 ≤ row ∧ row ≤ 30) then
    .error (.validationError "row")
  else if ¬ (seat = "A" ∨ seat = "B" ∨ seat = "C" ∨ seat = "D" ∨ seat = "E"
      ∨ seat = "F") then
    .error (.validationError "seat")
  else
    match seat_type with
    | none => .error (.validationError "seat_type")
    | some _ => .ok { row := row, seat := seat,
                      seat_type := seat_type_post_init seat }

/-- Textual rendering of a SeatPreference (its Python str form): row, seat
letter, a space and the seat-type value. -/
def SeatPreference.str (s : SeatPreference) : String :=
  toString s.row ++ s.seat ++ " " ++ s.seat_type.value

/-- has_extra_legroom property of SeatPreference: rows 1, 14 and 20. -/
def SeatPreference.has_extra_legroom (s : SeatPreference) : Bool :=
  s.row == 1 || s.row == 14 || s.row == 20

/-- The fallback of select_seat_with_retry from
app/services/booking_services.py: it constructs SeatPreference with row 10
and seat C and passes no seat_type. -/
def get_default_seat_fallback : Except PyErr SeatPreference :=
  SeatPreference.construct 10 "C" none

/-- Retry loop of select_seat_with_retry: the attempts stream yields the
outcome of each single seat-selection attempt (some seat on success, none
when the attempt produced a SeatSelectionFailed, raised, or got no input);
the loop returns the first successful seat and falls back to
get_default_seat_fallback after max_attempts failures. -/
def select_seat_loop : Nat → List (Option SeatPreference) →
    Except PyErr SeatPreference
  | 0, _ => get_default_seat_fallback
  | _ + 1, some seat :: _ => .ok seat
  | n + 1, none :: rest => select_seat_loop n rest
  | n + 1, [] => select_seat_loop n []

/-- select_seat_with_retry from app/services/booking_services.py reduced to
its seat outcome (the returned message history and usage are threaded state
the claim does not mention). -/
def select_seat_with_retry (attempts : List (Option SeatPreference))
    (max_attempts : Nat) : Except PyErr SeatPreference :=
  select_seat_loop max_attempts attempts

/-- NoFlightFound from flight_models. -/
structure NoFlightFound where
  message : String
  search_request : FlightSearchRequest
  suggestions : List String
  alternative_dates : List PDate
deriving Repr, DecidableEq

/-- Construction of a NoFlightFound as pydantic performs it: message has a
declared default, while suggestions and alternative_dates are required
fields without defaults, so a call omitting either raises a validation
error. -/
def NoFlightFound.construct (search_request : FlightSearchRequest)
    (message : Option String) (suggestions : Option (List String))
    (alternative_dates : Option (List PDate)) : Except PyErr NoFlightFound :=
  match suggestions with
  | none => .error (.validationError "suggestions")
  | some sugg =>
    match alternative_dates with
    | none => .error (.validationError "alternative_dates")
    | some alts =>
      .ok { message := message.getD "No flights found matching your criteria."
            search_request := search_request
            suggestions := sugg
            alternative_dates := alts }

/-- FlightSearchResult from flight_models. -/
structure FlightSearchResult where
  request : FlightSearchRequest
  flights : List FlightDetails
  total_found : Nat
  cheapest_flight : Option Rat
  fastest_flight : Option String
  best_value_flight : Option FlightDetails
  summary : String
deriving Repr, DecidableEq

/-- calculate_analytics from FlightSearchResult: when flights is non-empty
it computes the minimum price and assigns it to the attribute
cheapest_flights, which is not a declared field of the model; pydantic
rejects assignment to an undeclared field, so the method raises for every
non-empty flight list and the model keeps its prior field values
(cheapest_flight in particular is never populated). -/
def FlightSearchResult.calculate_analytics (self : FlightSearchResult) :
    Except PyErr FlightSearchResult :=
  if self.flights.isEmpty then .ok self
  else .error (.noSuchField "cheapest_flights")

/-- Union of the two valid outputs of the flight search agent. -/
inductive SearchOutcome where
  | found (r : FlightSearchResult)
  | notFound (n : NoFlightFound)
deriving Repr, DecidableEq

/-- validate_flight_search, the output validator of flight_search_agent in
app/agents/flight_search_agent.py: a NoFlightFound passes through; for a
FlightSearchResult, every flight must match the request origin, destination
(case-insensitively) and departure date, a mismatch raising a model retry;
then calculate_analytics runs (raising for every non-empty flight list, see
above), and the closing log statement reads the attribute cheapest_price,
which is not a declared field of the model, so even an empty result raises
an attribute error. -/
def validate_flight_search (req : FlightSearchRequest)
    (result : SearchOutcome) : Except PyErr SearchOutcome :=
  match result with
  | .notFound n => .ok (.notFound n)
  | .found r =>
    let invalid := r.flights.filter (fun f =>
      (pyUpper f.origin != pyUpper req.origin)
      || (pyUpper f.destination != pyUpper req.destination)
      || (f.date != req.departure_date))
    if !invalid.isEmpty then
      .error (.modelRetry "flights do not match criteria")
    else do
      let r2 ← r.calculate_analytics
      let _ ← (Except.error (.attributeError "cheapest_price") :
        Except PyErr Unit)
      pure (.found r2)

/-- The except branch of search_flights, from _handle_search_error in
app/services/flight_services.py: it constructs a NoFlightFound with the
fixed error message and suggestions but does not pass the required field
alternative_dates. -/
def handle_search_error (_error : PyErr)
    (search_request : FlightSearchRequest) : Except PyErr NoFlightFound :=
  NoFlightFound.construct search_request
    (some "An error occurred during flight search.")
    (some ["Please try again", "Contact support if issue persists"])
    none

/-- search_flights from app/services/flight_services.py: the pipeline runs
inside a try block; a normal pipeline outcome is returned as is, and any
raised error is passed to handle_search_error, whose own outcome (value or
newly raised error) is what the caller sees. -/
def search_flights (search_request : FlightSearchRequest)
    (pipeline : Except PyErr SearchOutcome) : Except PyErr SearchOutcome :=
  match pipeline with
  | .ok result_data => .ok result_data
  | .error e =>
    (handle_search_error e search_request).map SearchOutcome.notFound

/-- create_no_flights_response, a tool of flight_search_agent: constructs a
NoFlightFound with the reason and the fixed three suggestions, without
passing the required field alternative_dates. -/
def create_no_flights_response (search_request : FlightSearchRequest)
    (reason : String) : Except PyErr NoFlightFound :=
  NoFlightFound.construct search_request (some reason)
    (some ["Try different dates", "Check airport codes", "Try again later"])
    none

/-- No-results heuristic of search_kayak_flights: the lowercased page text
contains the substring no flights or the substring no results. -/
def has_no_results_marker (html : String) : Bool :=
  pyContains (pyLower html) "no flights" || pyContains (pyLower html) "no results"

/-- Outcome of the search_kayak_flights tool together with the fact of
whether the extraction agent was invoked on the text. -/
structure KayakToolResult where
  flights : List FlightDetails
  extraction_invoked : Bool
deriving Repr, DecidableEq

/-- search_kayak_flights, a tool of flight_search_agent in
app/agents/flight_search_agent.py, with the extraction agent abstracted as
a function from the truncated page text to its outcome: non-empty text
matching the no-results heuristic returns an empty list without invoking
extraction; otherwise extraction runs on the first 15000 characters, an
exception from it degrading to an empty list. -/
def search_kayak_flights (html_content : String)
    (extract : String → Except PyErr (List FlightDetails)) : KayakToolResult :=
  if !html_content.data.isEmpty && has_no_results_marker html_content then
    { flights := [], extraction_invoked := false }
  else
    match extract (pyTakeStr 15000 html_content) with
    | .ok flights => { flights := flights, extraction_invoked := true }
    | .error _ => { flights := [], extraction_invoked := true }

/-- ASCII uppercase letter test. -/
def isAsciiUpper (c : Char) : Bool :=
  'A' ≤ c && c ≤ 'Z'

/-- Character class of the confirmation-number pattern: uppercase letters
and digits. -/
def isUpperAlnum (c : Char) : Bool :=
  isAsciiUpper c || c.isDigit

/-- The 26 characters of string.ascii_uppercase. -/
def ascii_uppercase : List Char :=
  ['A', 'B', 'C', 'D', 'E', 'F', 'G', 'H', 'I', 'J', 'K', 'L', 'M',
   'N', 'O', 'P', 'Q', 'R', 'S', 'T', 'U', 'V', 'W', 'X', 'Y', 'Z']

/-- The 10 characters of string.digits. -/
def string_digits : List Char :=
  ['0', '1', '2', '3', '4', '5', '6', '7', '8', '9']

/-- One random choice of random.choices from string.ascii_uppercase, the
draw given as an index into that population. -/
def upperChar (i : Fin 26) : Char :=
  ascii_uppercase.getD i.val 'A'

/-- One random choice of random.choices from string.digits, the draw given
as an index into that population. -/
def digitChar (i : Fin 10) : Char :=
  string_digits.getD i.val '0'

/-- One random choice of random.choices from the concatenation
string.ascii_uppercase + string.digits (the 36-character population used by
the booking agent), the draw given as an index into it. -/
def upperOrDigitChar (i : Fin 36) : Char :=
  (ascii_uppercase ++ string_digits).getD i.val 'A'

/-- The generator _generate_confirmation_number from
app/services/booking_services.py: three random choices from
string.ascii_uppercase followed by three random choices from string.digits,
joined; the random draws are the index arguments. -/
def generate_confirmation_number (letters : Fin 3 → Fin 26)
    (numbers : Fin 3 → Fin 10) : String :=
  String.mk (List.ofFn (fun i => upperChar (letters i)))
    ++ String.mk (List.ofFn (fun i => digitChar (numbers i)))

/-- The generator inside process_booking in app/agents/booking_agent.py:
six random choices from string.ascii_uppercase + string.digits, joined; the
random draws are the index argument. -/
def process_booking_confirmation_number (choices : Fin 6 → Fin 36) : String :=
  String.mk (List.ofFn (fun i => upperOrDigitChar (choices i)))

/-- Semantics of the confirmation_number pattern of BookingConfirmation
under the engine that actually evaluates it: pydantic v2 compiles field
patterns with the Rust regex engine by default, and that engine's parser of
counted repetitions trims whitespace around the decimal bounds, so the
brace group 6 comma space 10 of the source pattern is the repetition bound
6 to 10; the anchored pattern therefore accepts exactly the strings of 6 to
10 characters drawn from uppercase letters and digits. -/
def confirmation_number_pattern_matches (s : String) : Bool :=
  6 ≤ s.data.length && s.data.length ≤ 10 && s.data.all isUpperAlnum

/-- Validation of the confirmation_number field of BookingConfirmation:
pydantic accepts the value exactly when it matches the declared pattern. -/
def validate_confirmation_number (s : String) : Except PyErr String :=
  if confirmation_number_pattern_matches s then .ok s
  else .error (.validationError "confirmation_number")

/-- Purchase map assembled by buy_tickets (its keys as record fields). -/
structure PurchaseData where
  flight_number : String
  airline : String
  seat : String
  price : Rat
  confirmation_number : String
  status : String
  route : String
  date : String
  departure_time : String
  arrival_time : String
  purchase_time : String
  passenger_count : Int
  seat_type : String
  has_extra_legroom : Bool
deriving Repr, DecidableEq

/-- buy_tickets from app/services/booking_services.py: assembles the
purchase map from the flight and seat; the generated confirmation number
and the current time are the two effectful inputs, passed as arguments. -/
def buy_tickets (flight_details : FlightDetails) (seat : SeatPreference)
    (confirmation_number : String) (purchase_time : String) : PurchaseData :=
  { flight_number := flight_details.flight_number
    airline := flight_details.airline
    seat := seat.str
    price := flight_details.price
    confirmation_number := confirmation_number
    status := "confirmed"
    route := flight_details.origin ++ " → " ++ flight_details.destination
    date := strftime_ymd flight_details.date
    departure_time := flight_details.departure_time
    arrival_time := flight_details.arrival_time
    purchase_time := purchase_time
    passenger_count := 1
    seat_type := seat.seat_type.value
    has_extra_legroom := seat.has_extra_legroom }

/-- Concrete matching flight used by the concrete scenarios: ADD to DXB on
2025-11-21. -/
def mkFlight (fn : String) (price : Rat) : FlightDetails :=
  { id := fn
    airline := "Ethiopian"
    flight_number := fn
    price := price
    origin := "ADD"
    destination := "DXB"
    departure_time := "08:00"
    arrival_time := "12:30"
    duration := "4h 30m"
    date := { year := 2025, month := 11, day := 21 }
    flight_class := .economy
    aircraft := none
    stops := 0
    booking_url := none }

/-- Concrete FlightSearchResult holding three matching flights, before the
analytics step. -/
def threeFlightResult : FlightSearchResult :=
  { request := addDxbOneWay
    flights := [mkFlight "ET600" 350, mkFlight "ET602" 290, mkFlight "ET604" 410]
    total_found := 3
    cheapest_flight := none
    fastest_flight := none
    best_value_flight := none
    summary := "three matching flights" }

/-- Concrete page text containing the no-results phrase. -/
def noResultsHtml : String :=
  "Sorry, No Results available for this route."

end FlightBooking

namespace FlightBooking

/-- C1: kayak_search_tool returns exactly the base URL with the formatted
departure date, the return-date path segment exactly when a return date is
present, and the fixed query suffix; the ADD-DXB one-way fixture yields the
exact documented string; passengers and flight class never influence the
URL. -/
theorem C1_kayak_url :
    (∀ o d dep p fc mp dir,
      kayak_search_tool ⟨o, d, dep, none, p, fc, mp, dir⟩ =
        "https://www.kayak.com/flights/" ++ o ++ "-" ++ d ++ "/"
          ++ strftime_ymd dep ++ "?sort=bestflight_a&currency=USD")
  ∧ (∀ o d dep rd p fc mp dir,
      kayak_search_tool ⟨o, d, dep, some rd, p, fc, mp, dir⟩ =
        "https://www.kayak.com/flights/" ++ o ++ "-" ++ d ++ "/"
          ++ strftime_ymd dep ++ "/" ++ strftime_ymd rd
          ++ "?sort=bestflight_a&currency=USD")
  ∧ kayak_search_tool addDxbOneWay =
      "https://www.kayak.com/flights/ADD-DXB/2025-11-21?sort=bestflight_a&currency=USD"
  ∧ (∀ r p fc,
      kayak_search_tool { r with passengers := p, flight_class := fc } =
        kayak_search_tool r) := by
  refine ⟨fun o d dep p fc mp dir => rfl, fun o d dep rd p fc mp dir => rfl, ?_,
    fun r p fc => rfl⟩
  decide

/-- C8: the duration parser maps the documented examples to 330, 45, 180
and 0, never raises (it is a total function returning 0 on malformed
input), and the copy in summarize_services agrees with the copy in
flight_services on every input. -/
theorem C8_duration_parsing :
    parse_duration "5h 30m" = 330
  ∧ parse_duration "45m" = 45
  ∧ parse_duration "3h" = 180
  ∧ parse_duration "garbage" = 0
  ∧ (∀ s, parse_duration_to_minutes s = parse_duration s) := by
  refine ⟨by decide, by decide, by decide, by decide, fun s => rfl⟩

/-- C10: both filters return exactly the input flights satisfying the bound
(membership characterisation), as an order-preserving subsequence of the
input, and both are idempotent at a fixed bound. -/
theorem C10_filters :
    (∀ fs p, List.Sublist (filter_flights_by_price fs p) fs)
  ∧ (∀ fs p f, f ∈ filter_flights_by_price fs p ↔ f ∈ fs ∧ f.price ≤ p)
  ∧ (∀ fs p, filter_flights_by_price (filter_flights_by_price fs p) p =
      filter_flights_by_price fs p)
  ∧ (∀ fs k, List.Sublist (filter_flights_by_stops fs k) fs)
  ∧ (∀ fs k f, f ∈ filter_flights_by_stops fs k ↔ f ∈ fs ∧ f.stops ≤ k)
  ∧ (∀ fs k, filter_flights_by_stops (filter_flights_by_stops fs k) k =
      filter_flights_by_stops fs k) := by
  refine ⟨fun fs p => List.filter_sublist fs, fun fs p f => ?_, fun fs p => ?_,
    fun fs k => List.filter_sublist fs, fun fs k f => ?_, fun fs k => ?_⟩
  · simp [filter_flights_by_price, List.mem_filter]
  · simp [filter_flights_by_price, List.filter_filter]
  · simp [filter_flights_by_stops, List.mem_filter]
  · simp [filter_flights_by_stops, List.filter_filter]

/-- C2 is refuted by the code: when the pipeline raises, the except branch
of search_flights calls _handle_search_error, whose NoFlightFound
construction omits the required field alternative_dates and therefore
itself raises a validation error; the exception escapes to the caller
instead of the promised NoFlightFound value. -/
theorem C2_error_handler_itself_raises :
    (∀ req e, search_flights req (.error e) =
      .error (.validationError "alternative_dates"))
  ∧ search_flights addDxbOneWay (.error (.exception "fetch blew up")) =
      .error (.validationError "alternative_dates")
  ∧ (∀ req e n, search_flights req (.error e) ≠
      .ok (SearchOutcome.notFound n)) :=
  ⟨fun _req _e => rfl, rfl, fun _req _e _n h => Except.noConfusion h⟩

/-- C3 is refuted by the code: on the three-flight result matching the
request, the output validator reaches calculate_analytics, which assigns
the minimum price to the undeclared attribute cheapest_flights and raises;
the declared cheapest_flight field is never populated (it keeps its value
none), and the same holds for every result with a non-empty flight list. -/
theorem C3_analytics_writes_undeclared_field :
    validate_flight_search addDxbOneWay (.found threeFlightResult) =
      .error (.noSuchField "cheapest_flights")
  ∧ threeFlightResult.calculate_analytics =
      .error (.noSuchField "cheapest_flights")
  ∧ threeFlightResult.cheapest_flight = none
  ∧ threeFlightResult.total_found = 3
  ∧ (∀ req f fs tf cf ff bv sm,
      FlightSearchResult.calculate_analytics ⟨req, f :: fs, tf, cf, ff, bv, sm⟩ =
        .error (.noSuchField "cheapest_flights")) := by
  refine ⟨rfl, rfl, rfl, rfl, fun req f fs tf cf ff bv sm => rfl⟩

/-- C4 is refuted by the code: the custom init of SeatPreference never
reaches its window branch (seat_type is a required field, so it is present
on every validated instance), and its else branch maps every letter other
than C and D to middle; a successfully constructed seat A or F therefore
carries seat_type middle, and no constructed SeatPreference ever carries
window. -/
theorem C4_window_seats_become_middle :
    SeatPreference.construct 12 "A" (some SeatType.window) =
      .ok { row := 12, seat := "A", seat_type := SeatType.middle }
  ∧ SeatPreference.construct 3 "F" (some SeatType.window) =
      .ok { row := 3, seat := "F", seat_type := SeatType.middle }
  ∧ SeatPreference.construct 7 "C" (some SeatType.aisle) =
      .ok { row := 7, seat := "C", seat_type := SeatType.aisle }
  ∧ SeatPreference.construct 7 "B" (some SeatType.middle) =
      .ok { row := 7, seat := "B", seat_type := SeatType.middle }
  ∧ SeatType.middle ≠ SeatType.window
  ∧ (∀ row seat st,
      Except.map (fun sp => sp.seat_type) (SeatPreference.construct row seat st)
        ≠ .ok SeatType.window) := by
  refine ⟨rfl, rfl, rfl, rfl, by decide, fun row seat st => ?_⟩
  unfold SeatPreference.construct
  split
  · exact fun h => Except.noConfusion h
  · split
    · exact fun h => Except.noConfusion h
    · match st with
      | none => exact fun h => Except.noConfusion h
      | some st0 =>
        simp only [Except.map]
        intro h
        have h2 : seat_type_post_init seat = SeatType.window :=
          Except.ok.inj h
        unfold seat_type_post_init at h2
        by_cases hc : (seat = "C" || seat = "D") = true
        · rw [if_pos hc] at h2; exact SeatType.noConfusion h2
        · rw [if_neg hc] at h2; exact SeatType.noConfusion h2

/-- C5 is refuted by the code: after three failed attempts the loop calls
_get_default_seat_fallback, which constructs SeatPreference with row 10 and
seat C but omits the required field seat_type, so the construction raises a
validation error; select_seat_with_retry raises instead of returning the
fallback seat. -/
theorem C5_fallback_construction_raises :
    select_seat_with_retry [none, none, none] 3 =
      .error (.validationError "seat_type")
  ∧ get_default_seat_fallback = .error (.validationError "seat_type")
  ∧ (∀ s, select_seat_with_retry [none, none, none] 3 ≠ .ok s) :=
  ⟨rfl, rfl, fun _s h => Except.noConfusion h⟩

/-- Every choice from the uppercase population is in the uppercase or digit
class. -/
theorem upperChar_isUpperAlnum : ∀ i : Fin 26, isUpperAlnum (upperChar i) = true := by
  decide

/-- Every choice from the digit population is in the uppercase or digit
class. -/
theorem digitChar_isUpperAlnum : ∀ i : Fin 10, isUpperAlnum (digitChar i) = true := by
  decide

/-- Every choice from the combined population is in the uppercase or digit
class. -/
theorem upperOrDigitChar_isUpperAlnum :
    ∀ i : Fin 36, isUpperAlnum (upperOrDigitChar i) = true := by
  decide

/-- A six-character string over the uppercase-or-digit class matches the
confirmation-number pattern. -/
theorem confirmation_number_pattern_matches_of_six (s : String)
    (hlen : s.data.length = 6) (hall : s.data.all isUpperAlnum = true) :
    confirmation_number_pattern_matches s = true := by
  unfold confirmation_number_pattern_matches
  rw [hlen, hall]
  decide

/-- The booking-service generator always yields six characters of the
uppercase-or-digit class. -/
theorem generate_confirmation_number_len_all (L : Fin 3 → Fin 26)
    (N : Fin 3 → Fin 10) :
    (generate_confirmation_number L N).data.length = 6
  ∧ (generate_confirmation_number L N).data.all isUpperAlnum = true := by
  constructor
  · show (List.ofFn (fun i => upperChar (L i))
      ++ List.ofFn (fun i => digitChar (N i))).length = 6
    simp
  · show (List.ofFn (fun i => upperChar (L i))
      ++ List.ofFn (fun i => digitChar (N i))).all isUpperAlnum = true
    refine List.all_eq_true.mpr fun c hc => ?_
    rcases List.mem_append.mp hc with h | h
    · obtain ⟨i, rfl⟩ := Set.mem_range.mp ((List.mem_ofFn _ _).mp h)
      exact upperChar_isUpperAlnum (L i)
    · obtain ⟨i, rfl⟩ := Set.mem_range.mp ((List.mem_ofFn _ _).mp h)
      exact digitChar_isUpperAlnum (N i)

/-- The booking-agent generator always yields six characters of the
uppercase-or-digit class. -/
theorem process_booking_confirmation_number_len_all (C : Fin 6 → Fin 36) :
    (process_booking_confirmation_number C).data.length = 6
  ∧ (process_booking_confirmation_number C).data.all isUpperAlnum = true := by
  constructor
  · show (List.ofFn (fun i => upperOrDigitChar (C i))).length = 6
    simp
  · show (List.ofFn (fun i => upperOrDigitChar (C i))).all isUpperAlnum = true
    refine List.all_eq_true.mpr fun c hc => ?_
    obtain ⟨i, rfl⟩ := Set.mem_range.mp ((List.mem_ofFn _ _).mp hc)
    exact upperOrDigitChar_isUpperAlnum (C i)

/-- C6: whatever the random draws, both generators produce a string of
exactly six uppercase-or-digit characters (never a lowercase letter or
punctuation), and the confirmation_number pattern of BookingConfirmation
(a 6-to-10 repetition of the uppercase-or-digit class under the engine
that evaluates it) accepts every such code; concrete draws and the
rejection of lowercase, too-short and too-long strings are checked as
sanity instances. -/
theorem C6_generated_codes_accepted :
    (∀ letters numbers,
        (generate_confirmation_number letters numbers).length = 6
      ∧ (generate_confirmation_number letters numbers).data.all isUpperAlnum = true
      ∧ validate_confirmation_number (generate_confirmation_number letters numbers) =
          .ok (generate_confirmation_number letters numbers))
  ∧ (∀ choices,
        (process_booking_confirmation_number choices).length = 6
      ∧ (process_booking_confirmation_number choices).data.all isUpperAlnum = true
      ∧ validate_confirmation_number (process_booking_confirmation_number choices) =
          .ok (process_booking_confirmation_number choices))
  ∧ generate_confirmation_number (fun i => Fin.castLE (by decide) i)
      (fun i => Fin.castLE (by decide) i) = "ABC012"
  ∧ process_booking_confirmation_number (fun i => Fin.castLE (by decide) i) =
      "ABCDEF"
  ∧ confirmation_number_pattern_matches "ABC123" = true
  ∧ confirmation_number_pattern_matches "ABCD123456" = true
  ∧ confirmation_number_pattern_matches "abc123" = false
  ∧ confirmation_number_pattern_matches "ABC12" = false
  ∧ confirmation_number_pattern_matches "ABCD1234567" = false
  ∧ confirmation_number_pattern_matches "ABC123!" = false := by
  refine ⟨fun L N => ?_, fun C => ?_, by decide, by decide, by decide,
    by decide, by decide, by decide, by decide, by decide⟩
  · obtain ⟨hlen, hall⟩ := generate_confirmation_number_len_all L N
    have hm := confirmation_number_pattern_matches_of_six _ hlen hall
    exact ⟨hlen, hall, by simp [validate_confirmation_number, hm]⟩
  · obtain ⟨hlen, hall⟩ := process_booking_confirmation_number_len_all C
    have hm := confirmation_number_pattern_matches_of_six _ hlen hall
    exact ⟨hlen, hall, by simp [validate_confirmation_number, hm]⟩

/-- C7 is half right and half refuted by the code: non-empty page text
whose lowercase form contains the no-results phrase makes
search_kayak_flights return an empty flight list without invoking the
extraction agent (for every possible extraction behaviour), but the
NoFlightFound the pipeline is then supposed to return cannot be built:
create_no_flights_response omits the required field alternative_dates and
raises a validation error instead of returning the suggestions. -/
theorem C7_short_circuit_but_response_raises :
    (∀ extract, search_kayak_flights noResultsHtml extract =
      { flights := [], extraction_invoked := false })
  ∧ has_no_results_marker noResultsHtml = true
  ∧ (∀ req reason, create_no_flights_response req reason =
      .error (.validationError "alternative_dates"))
  ∧ (∀ req reason n, create_no_flights_response req reason ≠ .ok n) :=
  ⟨fun extract => rfl, by decide, fun req reason => rfl,
    fun _req _reason _n h => Except.noConfusion h⟩

/-- C9: buy_tickets copies the flight price unmodified, always records a
passenger count of one, renders the seat through the textual form of
SeatPreference, reports status confirmed and echoes the generated
confirmation number; as a total function of its inputs it raises nothing. -/
theorem C9_buy_tickets_fields (flight : FlightDetails) (seat : SeatPreference)
    (cn pt : String) :
    (buy_tickets flight seat cn pt).price = flight.price
  ∧ (buy_tickets flight seat cn pt).passenger_count = 1
  ∧ (buy_tickets flight seat cn pt).seat = SeatPreference.str seat
  ∧ (buy_tickets flight seat cn pt).status = "confirmed"
  ∧ (buy_tickets flight seat cn pt).confirmation_number = cn :=
  ⟨rfl, rfl, rfl, rfl, rfl⟩

end FlightBooking
